import Mathlib

/-
  Verification development for the Sandwich-Daemon gateway core.

  The definitions below are a shallow embedding of the Go source:
  internal/shard.go (Shard state machine, WriteJSON/SendEvent, Reconnect,
  Listen, OnEvent, OnDispatch, ChunkGuild/chunkGuild), internal/rpc.go
  (RPCManagerShardGroupCreate) and internal/errors.go. Durations are
  modelled in nanoseconds, matching Go time.Duration, and machine
  integers as Int/Nat since the embedded code only stores and compares
  them.
-/

namespace Sandwich

/-- Gateway opcodes from structs/discord, as referenced by the source. -/
inductive GatewayOp where
  | dispatch
  | heartbeat
  | identify
  | statusUpdate
  | voiceStateUpdate
  | resume
  | reconnect
  | requestGuildMembers
  | invalidSession
  | hello
  | heartbeatACK
deriving DecidableEq, Repr

/-- One nanosecond-denominated second, Go time.Second. -/
def timeSecond : Nat := 1000000000

/-- Go time.Minute in nanoseconds. -/
def timeMinute : Nat := 60 * timeSecond

/-- Source constant: maxReconnectWait = 600. In the Go source this is an
untyped integer constant that is compared directly against a
time.Duration value (nanoseconds). -/
def maxReconnectWait : Nat := 600

/-- Source constant: initialMemberChunkTimeout = 10 * time.Second. -/
def initialMemberChunkTimeout : Nat := 10 * timeSecond

/-- Source constant: memberChunkTimeout = 1 * time.Second. -/
def memberChunkTimeout : Nat := 1 * timeSecond

/-- Source constant: chunkStatePersistTimeout = 10 * time.Second. -/
def chunkStatePersistTimeout : Nat := 10 * timeSecond

/-! ## WriteJSON / SendEvent (shard.go)

SendEvent builds a SentPayload from the opcode and data and hands that
payload to WriteJSON as an empty-interface argument. WriteJSON decides
whether to wait on the per-shard websocket send bucket by comparing that
interface value i against the opcode constant GatewayOpHeartbeat. A Go
interface comparison between a payload pointer and an opcode constant is
never equal, so the dynamic type of the interface value matters and we
model interface values explicitly. -/

/-- Abstract data carried inside a sent payload (sequence number or a
full identify/resume body); WriteJSON only marshals it. -/
inductive SentData where
  | seqNum (n : Int)
  | body (s : String)
deriving DecidableEq, Repr

/-- The SentPayload structure handed from SendEvent to WriteJSON. -/
structure SentPayload where
  op : GatewayOp
  data : SentData
deriving DecidableEq, Repr

/-- A Go interface value as it can reach the parameter i of WriteJSON:
either an opcode constant or a pointer to a SentPayload. -/
inductive GoInterface where
  | opValue (op : GatewayOp)
  | sentPayload (p : SentPayload)
deriving DecidableEq, Repr

/-- The Go comparison i != discord.GatewayOpHeartbeat used in WriteJSON:
equal only when the interface holds the opcode value Heartbeat. -/
def goInterfaceIsHeartbeatOp : GoInterface → Bool
  | GoInterface.opValue op => op == GatewayOp.heartbeat
  | GoInterface.sentPayload _ => false

/-- WriteJSON waits on the per-shard send bucket ws:{shard_id}:{shard_count}
exactly when its interface argument i is not the Heartbeat opcode value
(shard.go, the `if i != discord.GatewayOpHeartbeat` guard). -/
def writeJSONWaitsOnBucket (i : GoInterface) : Bool :=
  !(goInterfaceIsHeartbeatOp i)

/-- SendEvent packs (op, data) into a SentPayload and calls WriteJSON with
that payload as the interface argument. This returns whether the send
waited on the per-shard send bucket. -/
def sendEventWaitsOnBucket (op : GatewayOp) (data : SentData) : Bool :=
  writeJSONWaitsOnBucket (GoInterface.sentPayload ⟨op, data⟩)

/-! ## Reconnect backoff (shard.go)

Reconnect starts with wait := time.Second; after each failed Connect it
sleeps wait, then doubles it, resetting wait to maxReconnectWait
whenever wait exceeds maxReconnectWait. Since wait is a Duration in
nanoseconds and maxReconnectWait is the bare constant 600, the clamp
compares nanoseconds against 600. -/

/-- The duration (in nanoseconds) slept before retry number n+1, i.e. the
value of wait at the n-th sleep of the Reconnect loop (n = 0 is the sleep
after the first failed Connect attempt). -/
def reconnectWait : Nat → Nat
  | 0 => timeSecond
  | n + 1 =>
      let w := reconnectWait n * 2
      if w > maxReconnectWait then maxReconnectWait else w

/-- The wait the specification describes for failure count n:
min(2^n seconds, 600 seconds), in nanoseconds. -/
def specReconnectWait (n : Nat) : Nat :=
  min (2 ^ n * timeSecond) (600 * timeSecond)

/-! ## Connect: websocket send bucket creation (shard.go)

Connect calls
`sh.Manager.Buckets.CreateBucket(fmt.Sprintf("ws:%d:%d", sh.ShardID,
sh.ShardGroup.ShardCount), 120, time.Minute)`. -/

/-- A named token bucket as created by CreateBucket: name, slot limit and
window duration in nanoseconds. -/
structure BucketSpec where
  name : String
  limit : Nat
  windowNs : Nat
deriving DecidableEq, Repr

/-- The per-shard websocket send bucket created by Shard.Connect. -/
def connectWsBucket (shardID shardCount : Nat) : BucketSpec :=
  ⟨"ws:" ++ toString shardID ++ ":" ++ toString shardCount, 120, timeMinute⟩

/-! ## RPCManagerShardGroupCreate session-limit check (rpc.go)

After shard ids are computed the handler runs
`if len(event.ShardIDs) < manager.Gateway.SessionStartLimit.Remaining`
and scales on the then-branch, otherwise responding with the
session-limit failure. -/

/-- Outcome of the session-limit gate in RPCManagerShardGroupCreate. -/
inductive SGCreateOutcome where
  | scaled
  | sessionLimitError
deriving DecidableEq, Repr

/-- The decision RPCManagerShardGroupCreate takes between calling
manager.Scale (starting the group) and failing with the
not-enough-sessions response, given the computed shard id list and the
session_start_limit.remaining value. -/
def rpcShardGroupCreateDecision (shardIDs : List Int) (remaining : Int) :
    SGCreateOutcome :=
  if (shardIDs.length : Int) < remaining then SGCreateOutcome.scaled
  else SGCreateOutcome.sessionLimitError

/-! ## OnEvent sequence handling (shard.go)

OnEvent switches on the payload opcode. The Hello, Reconnect,
HeartbeatACK and unknown-opcode cases return from the function before
the trailing `atomic.StoreInt64(sh.seq, msg.Sequence)`, every other case
falls through to it. The InvalidSession case first reads the boolean
payload and, when it is non-resumable, clears the session id and zeroes
the sequence before falling through to the trailing store. The model
keeps the session fields that OnEvent touches and assumes the sends and
reconnects the handler performs succeed, since they do not change the
stored sequence. -/

/-- An inbound payload as far as OnEvent inspects it: the opcode, the
sequence field, and the decoded boolean body used by the InvalidSession
case (json.Get(msg.Data, "d").ToBool()). -/
structure ReceivedPayload where
  op : GatewayOp
  sequence : Int
  dataBool : Bool
deriving DecidableEq, Repr

/-- The per-shard session fields OnEvent can write: sessionID and seq. -/
structure ShardSession where
  sessionID : String
  seq : Int
deriving DecidableEq, Repr

/-- Whether the OnEvent switch case for this opcode returns before the
trailing sequence store. Hello, Reconnect and HeartbeatACK return inside
their cases; there being no other opcode constants, the default
(unknown packet) branch of the source cannot be reached from this
opcode type. -/
def onEventReturnsEarly : GatewayOp → Bool
  | GatewayOp.hello => true
  | GatewayOp.reconnect => true
  | GatewayOp.heartbeatACK => true
  | _ => false

/-- The effect of Shard.OnEvent on the session fields. -/
def onEvent (st : ShardSession) (msg : ReceivedPayload) : ShardSession :=
  if onEventReturnsEarly msg.op then st
  else
    let st :=
      if msg.op = GatewayOp.invalidSession ∧ msg.dataBool = false then
        { st with sessionID := "", seq := 0 }
      else st
    { st with seq := msg.sequence }

/-! ## Connect: IDENTIFY versus RESUME (shard.go)

After the HELLO frame is processed, Connect loads seq and sessionID and
branches: `if sessionID == "" || seq == 0` it calls Identify, otherwise
it calls Resume and then optimistically sets the shard status to
ShardReady. Identify waits on the identify token bucket
gw:{token_hash}:{concurrency_bucket} (and decrements
SessionStartLimit.Remaining); Resume sends the Resume payload built from
the token, the stored session id and the stored sequence, and touches no
bucket. -/

/-- The gateway Resume payload as built by Shard.Resume. -/
structure ResumePayload where
  token : String
  sessionID : String
  sequence : Int
deriving DecidableEq, Repr

/-- Observable effects of the authentication step of Connect. -/
structure ConnectAuthResult where
  sentOp : GatewayOp
  resumeSent : Option ResumePayload
  identifyBucketWaited : Bool
  sessionRemainingDecremented : Bool
  statusSetReadyOptimistically : Bool
deriving DecidableEq, Repr

/-- The IDENTIFY-or-RESUME step of Shard.Connect, given the manager token
and the stored sessionID and sequence. -/
def connectAuth (token sessionID : String) (seq : Int) : ConnectAuthResult :=
  if sessionID = "" ∨ seq = 0 then
    { sentOp := GatewayOp.identify
      resumeSent := none
      identifyBucketWaited := true
      sessionRemainingDecremented := true
      statusSetReadyOptimistically := false }
  else
    { sentOp := GatewayOp.resume
      resumeSent := some ⟨token, sessionID, seq⟩
      identifyBucketWaited := false
      sessionRemainingDecremented := false
      statusSetReadyOptimistically := true }

/-! ## Listen: close-code classification (shard.go)

When readMessage yields a websocket close error, Listen switches on the
close code. The six fatal codes record the error string on the
ShardGroup, close the group, set the group status to ShardGroupError
(the Erroring state) and return the error; any other close code falls
through to the reconnect logic. -/

/-- Websocket close codes as matched by the Listen switch; the six fatal
constants from structs/discord are distinguished, everything else is
carried as a raw code. -/
inductive CloseCode where
  | notAuthenticated
  | invalidShard
  | shardingRequired
  | invalidAPIVersion
  | invalidIntents
  | disallowedIntents
  | other (code : Nat)
deriving DecidableEq, Repr

/-- ShardGroup status values (structs package); the spec §3 names the
error state Erroring, the source constant is ShardGroupError. -/
inductive ShardGroupStatus where
  | idle
  | starting
  | connecting
  | ready
  | replaced
  | closed
  | erroring
deriving DecidableEq, Repr

/-- Whether a close code is in the fatal set of the Listen switch. -/
def isFatalCloseCode : CloseCode → Bool
  | CloseCode.other _ => false
  | _ => true

/-- Observable effects of Listen handling a websocket close error. -/
structure ListenCloseResult where
  groupErrorRecorded : Option String
  groupClosed : Bool
  groupStatusSet : Option ShardGroupStatus
  reconnectAttempted : Bool
  listenReturns : Bool
deriving DecidableEq, Repr

/-- Listen handling of a close error with code c and message errMsg;
sameConn is the `wsConn == sh.wsConn` test that guards the reconnect on
the non-fatal path. -/
def listenHandleCloseError (errMsg : String) (c : CloseCode)
    (sameConn : Bool) : ListenCloseResult :=
  if isFatalCloseCode c then
    { groupErrorRecorded := some errMsg
      groupClosed := true
      groupStatusSet := some ShardGroupStatus.erroring
      reconnectAttempted := false
      listenReturns := true }
  else if sameConn then
    { groupErrorRecorded := none
      groupClosed := false
      groupStatusSet := none
      reconnectAttempted := true
      listenReturns := true }
  else
    { groupErrorRecorded := none
      groupClosed := false
      groupStatusSet := none
      reconnectAttempted := false
      listenReturns := false }

/-! ## OnDispatch (shard.go)

OnDispatch checks the producer client, then the event blacklist, then
runs the state-update step (StateDispatch), then checks its error and ok
flag, then the produce blacklist, and finally wraps the transformed
payload and publishes it. -/

/-- Result of the injected state-update step StateDispatch: the
transformed data and extras, the ok flag, and whether it errored. -/
structure StateResult where
  data : String
  extra : String
  ok : Bool
  errored : Bool
deriving DecidableEq, Repr

/-- The terminal action OnDispatch takes for one dispatch event. -/
inductive DispatchResult where
  | errNoProducer
  | droppedEventBlacklist
  | stateError
  | stateNotOk
  | blockedProduceBlacklist
  | published (data extra : String)
deriving DecidableEq, Repr

/-- Whether a dispatch result is a publish to the Publisher. -/
def DispatchResult.isPublished : DispatchResult → Bool
  | DispatchResult.published _ _ => true
  | _ => false

/-- Shard.OnDispatch control flow for an event of type msgType, with the
manager blacklists and the state-update outcome as inputs. -/
def onDispatch (producerPresent : Bool)
    (eventBlacklist produceBlacklist : List String)
    (msgType : String) (st : StateResult) : DispatchResult :=
  if !producerPresent then DispatchResult.errNoProducer
  else if eventBlacklist.contains msgType then
    DispatchResult.droppedEventBlacklist
  else if st.errored then DispatchResult.stateError
  else if !st.ok then DispatchResult.stateNotOk
  else if produceBlacklist.contains msgType then
    DispatchResult.blockedProduceBlacklist
  else DispatchResult.published st.data st.extra

/-- Whether the state-update step runs for this event: it is reached
exactly when the producer check and the event-blacklist check pass. -/
def onDispatchStateRan (producerPresent : Bool)
    (eventBlacklist : List String) (msgType : String) : Bool :=
  producerPresent && !(eventBlacklist.contains msgType)

/-! ## Guild member chunking (shard.go)

The ShardGroup keeps three maps keyed by guild id:
MemberChunksComplete (guild → AtomicBool), MemberChunkCallbacks
(guild → arrival-signal channel) and MemberChunksCallback
(guild → WaitGroup). They are modelled as association lists; the
AtomicBool is a Bool (set or unset), the arrival channel by the presence
of its key, and the WaitGroup by its outstanding counter. Timers are
modelled by feeding chunkGuild the list of gaps, in nanoseconds, between
the RequestGuildMembers send and the first arrival signal and between
consecutive arrival signals; a select between a signal and a ticker is
resolved for the ticker exactly when the gap reaches the timeout. -/

/-- Lookup in an association list keyed by guild id. -/
def alGet {α : Type} (l : List (Nat × α)) (k : Nat) : Option α :=
  (l.find? (fun p => p.1 == k)).map Prod.snd

/-- Insert or overwrite a key in an association list (Go map assignment). -/
def alSet {α : Type} (l : List (Nat × α)) (k : Nat) (v : α) :
    List (Nat × α) :=
  (k, v) :: l.filter (fun p => !(p.1 == k))

/-- Delete a key from an association list (Go delete). -/
def alErase {α : Type} (l : List (Nat × α)) (k : Nat) : List (Nat × α) :=
  l.filter (fun p => !(p.1 == k))

/-- The three per-group member-chunk maps. -/
structure ChunkMaps where
  complete : List (Nat × Bool)
  arrivals : List (Nat × Unit)
  callback : List (Nat × Nat)
deriving Repr

/-- cleanGuildChunks: delete the guild from MemberChunksCallback, close
and delete its entry in MemberChunkCallbacks, and delete it from
MemberChunksComplete. -/
def cleanGuildChunks (st : ChunkMaps) (g : Nat) : ChunkMaps :=
  { complete := alErase st.complete g
    arrivals := alErase st.arrivals g
    callback := alErase st.callback g }

/-- True when the guild has an entry in any of the three chunk maps. -/
def hasChunkEntries (st : ChunkMaps) (g : Nat) : Bool :=
  (alGet st.complete g).isSome || (alGet st.arrivals g).isSome ||
    (alGet st.callback g).isSome

/-- The map state chunkGuild installs before sending
RequestGuildMembers: an unset AtomicBool in MemberChunksComplete, a
fresh arrival channel in MemberChunkCallbacks, and a WaitGroup with one
outstanding unit in MemberChunksCallback. -/
def chunkInstall (st : ChunkMaps) (g : Nat) : ChunkMaps :=
  { complete := alSet st.complete g false
    arrivals := alSet st.arrivals g ()
    callback := alSet st.callback g 1 }

/-- Errors chunkGuild can return. -/
inductive ChunkErr where
  | sendFailed
  | chunkTimeout
deriving DecidableEq, Repr

/-- Observable outcome of one chunkGuild run. -/
structure ChunkRunResult where
  err : Option ChunkErr
  stateAfterReturn : ChunkMaps
  completedSet : Bool
  wgReleased : Bool
  cleanupAfterNs : Option Nat
  chunksReceived : Nat
deriving Repr

/-- Shard.chunkGuild for guild g: install the three map entries, send
RequestGuildMembers (sendOk tells whether SendEvent succeeded), wait up
to initialMemberChunkTimeout for the first arrival signal, then consume
signals while each arrives within memberChunkTimeout of the previous
one; finally release the WaitGroup, set the AtomicBool and schedule
cleanGuildChunks after chunkStatePersistTimeout. gaps lists the arrival
gaps in nanoseconds as described above. -/
def chunkGuildRun (st : ChunkMaps) (g : Nat) (sendOk : Bool)
    (gaps : List Nat) : ChunkRunResult :=
  let st1 := chunkInstall st g
  if !sendOk then
    { err := some ChunkErr.sendFailed
      stateAfterReturn := cleanGuildChunks st1 g
      completedSet := false
      wgReleased := false
      cleanupAfterNs := none
      chunksReceived := 0 }
  else
    match gaps with
    | [] =>
      { err := some ChunkErr.chunkTimeout
        stateAfterReturn := cleanGuildChunks st1 g
        completedSet := false
        wgReleased := false
        cleanupAfterNs := none
        chunksReceived := 0 }
    | g0 :: rest =>
      if initialMemberChunkTimeout ≤ g0 then
        { err := some ChunkErr.chunkTimeout
          stateAfterReturn := cleanGuildChunks st1 g
          completedSet := false
          wgReleased := false
          cleanupAfterNs := none
          chunksReceived := 0 }
      else
        let consumed := rest.takeWhile (fun d => d < memberChunkTimeout)
        { err := none
          stateAfterReturn :=
            { st1 with
              complete := alSet st1.complete g true
              callback := alSet st1.callback g 0 }
          completedSet := true
          wgReleased := true
          cleanupAfterNs := some chunkStatePersistTimeout
          chunksReceived := 1 + consumed.length }

/-- The action one ChunkGuild call takes. -/
inductive ChunkCallAction where
  | startedChunk
  | waitedOnCallback
  | warnedNoCallback
  | noopAlreadyComplete
deriving DecidableEq, Repr

/-- Shard.ChunkGuild for guild g: look up MemberChunksComplete; when an
entry exists and is unset, wait on the MemberChunksCallback WaitGroup if
one exists (warning otherwise); when the entry is set, do nothing; when
there is no entry, run chunkGuild, which installs the in-flight map
state and sends one RequestGuildMembers. Returns the action, the number
of RequestGuildMembers sends this call performs, and the map state the
call leaves behind while the flow it may have started is in flight. -/
def chunkGuildCall (st : ChunkMaps) (g : Nat) :
    ChunkCallAction × Nat × ChunkMaps :=
  match alGet st.complete g with
  | some completed =>
      if !completed then
        match alGet st.callback g with
        | some _ => (ChunkCallAction.waitedOnCallback, 0, st)
        | none => (ChunkCallAction.warnedNoCallback, 0, st)
      else (ChunkCallAction.noopAlreadyComplete, 0, st)
  | none => (ChunkCallAction.startedChunk, 1, chunkInstall st g)

/-- n successive ChunkGuild calls for guild g, returning the total number
of RequestGuildMembers sends and the final map state. -/
def chunkGuildCalls (st : ChunkMaps) (g : Nat) : Nat → Nat × ChunkMaps
  | 0 => (0, st)
  | n + 1 =>
      let r := chunkGuildCall st g
      let rest := chunkGuildCalls r.2.2 g n
      (r.2.1 + rest.1, rest.2)

/-- Whether the select on the first arrival signal resolves for the
10-second ticker: no signal ever arrives, or the first gap reaches
initialMemberChunkTimeout. -/
def chunkFirstSignalTimesOut : List Nat → Bool
  | [] => true
  | g0 :: _ => initialMemberChunkTimeout ≤ g0

/-! ## Association list lemmas -/

theorem alGet_alErase_self {α : Type} (l : List (Nat × α)) (k : Nat) :
    alGet (alErase l k) k = none := by
  induction l with
  | nil => rfl
  | cons p t ih =>
      by_cases h : p.1 = k
      · simp [alGet, alErase, List.filter_cons, h]
      · simp [alGet, alErase, List.filter_cons, List.find?_cons, h]

theorem alGet_alSet_self {α : Type} (l : List (Nat × α)) (k : Nat) (v : α) :
    alGet (alSet l k v) k = some v := by
  simp [alGet, alSet, List.find?_cons]

theorem hasChunkEntries_cleanGuildChunks (st : ChunkMaps) (g : Nat) :
    hasChunkEntries (cleanGuildChunks st g) g = false := by
  simp [hasChunkEntries, cleanGuildChunks, alGet_alErase_self]

theorem chunkGuildCalls_inflight (st : ChunkMaps) (g : Nat)
    (h1 : alGet st.complete g = some false)
    (h2 : alGet st.callback g = some 1) :
    ∀ n, chunkGuildCalls st g n = (0, st) := by
  intro n
  induction n with
  | zero => rfl
  | succ n ih =>
      unfold chunkGuildCalls chunkGuildCall
      rw [h1, h2]
      simp [ih]

/-! ## Claim theorems -/

/-- C1: the claim says WriteJSON blocks on the per-shard send bucket if
and only if the opcode is not Heartbeat, heartbeats bypassing the
bucket. In the source the guard compares the payload interface argument
i, which SendEvent always passes as a SentPayload pointer, against the
opcode constant GatewayOpHeartbeat, so the comparison is never equal
and every send, heartbeats included, waits on the bucket. This theorem
evaluates the embedded code at the failing input, a heartbeat send, and
shows the bucket is consumed for every SendEvent call. -/
theorem writeJSON_heartbeat_consumes_bucket :
    sendEventWaitsOnBucket GatewayOp.heartbeat (SentData.seqNum 0) = true ∧
      ∀ (op : GatewayOp) (d : SentData), sendEventWaitsOnBucket op d = true :=
  ⟨rfl, fun _ _ => rfl⟩

/-- C2 counterexample: a Dispatch payload carrying sequence 3 handled
while the stored sequence is 5 decreases the stored sequence although
the payload is not an InvalidSession, refuting the claim that the
sequence never decreases except on InvalidSession(non-resumable). -/
theorem onEvent_seq_decrease_counterexample :
    (onEvent ⟨"sess", 5⟩ ⟨GatewayOp.dispatch, 3, false⟩).seq = 3 ∧
      (3 : Int) < 5 ∧ GatewayOp.dispatch ≠ GatewayOp.invalidSession := by
  refine ⟨rfl, by norm_num, by decide⟩

/-- C2 amended: OnEvent stores the sequence of every handled payload
whose opcode falls through the switch, so the stored sequence never
decreases provided the handled payload carries a sequence at least the
stored one; on InvalidSession(non-resumable) the session id is cleared
and the sequence zeroed before that store. -/
theorem onEvent_seq_monotone (st : ShardSession) (msg : ReceivedPayload)
    (h : st.seq ≤ msg.sequence) : st.seq ≤ (onEvent st msg).seq := by
  unfold onEvent
  cases he : onEventReturnsEarly msg.op
  · simpa [he] using h
  · simp [he]

/-- C2 amended, witness: a Dispatch payload with sequence 4 handled at
stored sequence 1 does not decrease the sequence. -/
theorem onEvent_seq_monotone_witness :
    (ShardSession.mk "s" 1).seq ≤
      (onEvent ⟨"s", 1⟩ ⟨GatewayOp.dispatch, 4, false⟩).seq :=
  onEvent_seq_monotone ⟨"s", 1⟩ ⟨GatewayOp.dispatch, 4, false⟩ (by norm_num)

/-- C3: the claim says the sleep between failed Connect attempts is
min(2^n seconds, 600 seconds). In the source wait is a time.Duration in
nanoseconds while the cap maxReconnectWait is the bare constant 600, so
after the first doubling the comparison 2000000000 > 600 clamps wait to
600 nanoseconds: the second sleep is 600 ns where the claim requires 2
seconds. This theorem evaluates the backoff at that failing input. -/
theorem reconnect_second_wait_is_600ns :
    reconnectWait 1 = 600 ∧ specReconnectWait 1 = 2000000000 ∧
      reconnectWait 1 ≠ specReconnectWait 1 := by
  refine ⟨rfl, ?_, ?_⟩ <;> decide

/-- C4: on a websocket close error whose code is one of the six fatal
codes, Listen records the error string on the ShardGroup, closes the
group, sets the group status to Erroring (ShardGroupError) and returns
the error without attempting a reconnect. -/
theorem listen_fatal_close_codes (errMsg : String) (c : CloseCode)
    (sameConn : Bool) (h : isFatalCloseCode c = true) :
    listenHandleCloseError errMsg c sameConn =
      { groupErrorRecorded := some errMsg
        groupClosed := true
        groupStatusSet := some ShardGroupStatus.erroring
        reconnectAttempted := false
        listenReturns := true } := by
  unfold listenHandleCloseError
  simp [h]

/-- C4 witness: the NotAuthenticated close code is handled fatally. -/
theorem listen_fatal_close_codes_witness :
    listenHandleCloseError "websocket: close 4004"
        CloseCode.notAuthenticated true =
      { groupErrorRecorded := some "websocket: close 4004"
        groupClosed := true
        groupStatusSet := some ShardGroupStatus.erroring
        reconnectAttempted := false
        listenReturns := true } :=
  listen_fatal_close_codes "websocket: close 4004"
    CloseCode.notAuthenticated true (by decide)

/-- C5: after HELLO, Connect sends IDENTIFY exactly when the stored
session id is empty or the stored sequence is 0; otherwise it sends
RESUME carrying the token, session id and current sequence, sets the
shard status to Ready optimistically, and neither waits on the identify
token bucket nor decrements the session-start remaining count. -/
theorem connect_identify_iff (token sessionID : String) (seq : Int) :
    ((connectAuth token sessionID seq).sentOp = GatewayOp.identify ↔
        (sessionID = "" ∨ seq = 0)) ∧
      (¬(sessionID = "" ∨ seq = 0) →
        connectAuth token sessionID seq =
          { sentOp := GatewayOp.resume
            resumeSent := some ⟨token, sessionID, seq⟩
            identifyBucketWaited := false
            sessionRemainingDecremented := false
            statusSetReadyOptimistically := true }) := by
  constructor
  · unfold connectAuth
    split <;> simp_all
  · intro h
    unfold connectAuth
    simp [h]

/-- C5 witness: with session S1 and sequence 42 the resume path is taken
with the stored values and without touching the identify bucket. -/
theorem connect_identify_iff_witness :
    connectAuth "tok" "S1" 42 =
      { sentOp := GatewayOp.resume
        resumeSent := some ⟨"tok", "S1", 42⟩
        identifyBucketWaited := false
        sessionRemainingDecremented := false
        statusSetReadyOptimistically := true } :=
  (connect_identify_iff "tok" "S1" 42).2 (by decide)

/-- C6: the claim says a shard group whose shard id count is at most
session_start_limit.remaining is started, in particular when the count
exactly equals the remaining sessions. The source gate is the strict
comparison len(ShardIDs) < Remaining, so a request with 2 shard ids and
2 remaining sessions is rejected with the session-limit failure, while
the doc comment of ErrSessionLimitExhausted promises failure only when
remaining is less than the count. This theorem evaluates the gate at
the failing input and at the in-budget input below it. -/
theorem rpcShardGroupCreate_rejects_exact_remaining :
    rpcShardGroupCreateDecision [0, 1] 2 = SGCreateOutcome.sessionLimitError ∧
      rpcShardGroupCreateDecision [0] 2 = SGCreateOutcome.scaled := by
  refine ⟨?_, ?_⟩ <;> decide

/-- C7 counterexample: an event whose type is in neither blacklist but
whose state-update step returns ok = false is not published, refuting
the claim that every dispatch event outside the two blacklists is
published. -/
theorem onDispatch_not_ok_counterexample :
    (onDispatch true [] [] "GUILD_CREATE"
        ⟨"d", "e", false, false⟩).isPublished = false ∧
      onDispatchStateRan true [] "GUILD_CREATE" = true := by
  refine ⟨?_, ?_⟩ <;> decide

/-- C7 amended: with a producer client present, an event-blacklisted
type is dropped before the state-update step runs and nothing is
published; for any other type the state-update step runs, and when it
succeeds with ok = true the event is withheld from publishing exactly
when its type is in the produce blacklist, otherwise the transformed
payload is published. -/
theorem onDispatch_blacklists (ebl pbl : List String) (t : String)
    (st : StateResult) :
    (ebl.contains t = true →
      onDispatch true ebl pbl t st = DispatchResult.droppedEventBlacklist ∧
        onDispatchStateRan true ebl t = false) ∧
    (ebl.contains t = false → onDispatchStateRan true ebl t = true) ∧
    (ebl.contains t = false → st.errored = false → st.ok = true →
      pbl.contains t = true →
      onDispatch true ebl pbl t st = DispatchResult.blockedProduceBlacklist) ∧
    (ebl.contains t = false → st.errored = false → st.ok = true →
      pbl.contains t = false →
      onDispatch true ebl pbl t st = DispatchResult.published st.data st.extra) := by
  refine ⟨?_, ?_, ?_, ?_⟩ <;> intros <;>
    simp_all [onDispatch, onDispatchStateRan]

/-- C7 amended, witness: a produce-blacklisted TYPING_START event with a
successful ok state update is withheld from publishing. -/
theorem onDispatch_blacklists_witness :
    onDispatch true [] ["TYPING_START"] "TYPING_START"
        ⟨"d", "e", true, false⟩ = DispatchResult.blockedProduceBlacklist :=
  (onDispatch_blacklists [] ["TYPING_START"] "TYPING_START"
      ⟨"d", "e", true, false⟩).2.2.1 (by decide) rfl rfl (by decide)

/-- C8: when the first chunk signal select resolves for the 10-second
ticker, chunkGuild removes all three per-guild map entries and returns
the chunk-timeout error; when a first signal arrives in time, the run
succeeds, marks the chunks_complete AtomicBool set, releases the
callback WaitGroup, schedules cleanup after 10 seconds, and that
cleanup removes all three entries. -/
theorem chunkGuild_timeout_and_completion (st : ChunkMaps) (g : Nat)
    (gaps : List Nat) :
    (chunkFirstSignalTimesOut gaps = true →
      (chunkGuildRun st g true gaps).err = some ChunkErr.chunkTimeout ∧
        hasChunkEntries (chunkGuildRun st g true gaps).stateAfterReturn g =
          false) ∧
    (chunkFirstSignalTimesOut gaps = false →
      (chunkGuildRun st g true gaps).err = none ∧
        (chunkGuildRun st g true gaps).completedSet = true ∧
        (chunkGuildRun st g true gaps).wgReleased = true ∧
        alGet (chunkGuildRun st g true gaps).stateAfterReturn.complete g =
          some true ∧
        (chunkGuildRun st g true gaps).cleanupAfterNs =
          some chunkStatePersistTimeout ∧
        hasChunkEntries
          (cleanGuildChunks (chunkGuildRun st g true gaps).stateAfterReturn g)
          g = false) := by
  constructor
  · intro h
    match gaps with
    | [] =>
        simp [chunkGuildRun, hasChunkEntries_cleanGuildChunks]
    | g0 :: rest =>
        have h0 : initialMemberChunkTimeout ≤ g0 := by
          simpa [chunkFirstSignalTimesOut] using h
        simp [chunkGuildRun, h0, hasChunkEntries_cleanGuildChunks]
  · intro h
    match gaps with
    | [] => simp [chunkFirstSignalTimesOut] at h
    | g0 :: rest =>
        have h0 : ¬ initialMemberChunkTimeout ≤ g0 := by
          simpa [chunkFirstSignalTimesOut] using h
        simp [chunkGuildRun, h0, hasChunkEntries_cleanGuildChunks,
          alGet_alSet_self]

/-- C8 witness: with the first signal after 2 seconds and one more after
half a second, the run completes with two chunks and a scheduled
cleanup; with no signal at all it times out and the maps are cleaned. -/
theorem chunkGuild_timeout_and_completion_witness :
    ((chunkGuildRun ⟨[], [], []⟩ 9 true []).err =
        some ChunkErr.chunkTimeout ∧
      hasChunkEntries (chunkGuildRun ⟨[], [], []⟩ 9 true []).stateAfterReturn
          9 = false) ∧
    ((chunkGuildRun ⟨[], [], []⟩ 9 true
          [2000000000, 500000000]).completedSet = true) := by
  refine ⟨(chunkGuild_timeout_and_completion ⟨[], [], []⟩ 9 []).1 rfl, ?_⟩
  exact ((chunkGuild_timeout_and_completion ⟨[], [], []⟩ 9
    [2000000000, 500000000]).2 (by decide)).2.1

/-- C9: while a chunk flow for a guild is in flight, meaning the
chunks_complete entry exists unset and the callback wait-handle is
installed, a further ChunkGuild call performs no RequestGuildMembers
send and waits on the existing callback; when the entry is set the call
is an immediate no-op; and starting from a state with no entry, n+1
successive ChunkGuild calls perform exactly one send in total. -/
theorem chunkGuild_coalesces (st : ChunkMaps) (g : Nat) :
    (alGet st.complete g = some false →
      (alGet st.callback g).isSome = true →
      (chunkGuildCall st g).1 = ChunkCallAction.waitedOnCallback ∧
        (chunkGuildCall st g).2.1 = 0) ∧
    (alGet st.complete g = some true →
      (chunkGuildCall st g).1 = ChunkCallAction.noopAlreadyComplete ∧
        (chunkGuildCall st g).2.1 = 0) ∧
    (alGet st.complete g = none →
      ∀ n, (chunkGuildCalls st g (n + 1)).1 = 1) := by
  refine ⟨?_, ?_, ?_⟩
  · intro h1 h2
    obtain ⟨w, hw⟩ := Option.isSome_iff_exists.mp h2
    unfold chunkGuildCall
    rw [h1, hw]
    exact ⟨rfl, rfl⟩
  · intro h1
    unfold chunkGuildCall
    rw [h1]
    exact ⟨rfl, rfl⟩
  · intro h1 n
    unfold chunkGuildCalls chunkGuildCall
    rw [h1]
    have hrest := chunkGuildCalls_inflight (chunkInstall st g) g
      (by simp [chunkInstall, alGet_alSet_self])
      (by simp [chunkInstall, alGet_alSet_self]) n
    simp [hrest]

/-- C9 witness: from an empty chunk state, three successive ChunkGuild
calls for guild 7 send exactly one RequestGuildMembers. -/
theorem chunkGuild_coalesces_witness :
    (chunkGuildCalls ⟨[], [], []⟩ 7 (2 + 1)).1 = 1 :=
  (chunkGuild_coalesces ⟨[], [], []⟩ 7).2.2 rfl 2

/-- C10: the claim says Connect creates the per-shard websocket send
bucket with a limit of 115 sends per 60 seconds. The source calls
CreateBucket with a limit of 120 per time.Minute, although the
WriteJSON comment documents that only up to 115 non-heartbeat messages
a minute are allowed. This theorem evaluates the bucket Connect creates
for shard 0 of 1. -/
theorem connect_creates_ws_bucket_120 :
    connectWsBucket 0 1 = ⟨"ws:0:1", 120, 60000000000⟩ ∧
      (120 : Nat) ≠ 115 := by
  refine ⟨?_, ?_⟩ <;> decide

end Sandwich
